import Mathlib

/-!
Verification of the update-dispatch and delayed-reaction scheduling core of
the Auto-Reaction-Bot repository (bot-handler.js), as a shallow embedding.

Modelling decisions:
* JavaScript numbers are modelled as rationals (`ℚ`); the draws produced by
  calls of the random number generator lie in the half-open interval [0,1)
  and are passed explicitly as inputs.
* The Telegram bot API client is modelled by `ApiBehavior`, which records,
  per operation, whether the awaited call rejects.  A run of `onUpdate`
  returns a `RunResult`: the ordered trace of attempted outbound API calls,
  and the error with which the returned promise rejects, if any.
* The environment variables REACT_DELAY_MIN_MS and REACT_DELAY_MAX_MS are
  modelled by `Env`; `Option.none` stands for the NaN produced by
  applying Number to an unset or non-numeric variable.
-/

namespace AutoReactionBot

/-- Chat types occurring in content.chat.type of a Telegram update.  The
source compares this field against the string literals private, group,
supergroup and channel; the Lean keyword forces the name privateChat. -/
inductive ChatType
  | privateChat
  | group
  | supergroup
  | channel
deriving DecidableEq

/-- The chat object of a message or channel post: content.chat. -/
structure Chat where
  id : Int
  type : ChatType
  title : String
deriving DecidableEq

/-- The content object of a message or channel post: chat, message_id,
optional text, and the first name of the sender (content.from.first_name,
read only in the private-chat branch of the /start handler). -/
structure MessageContent where
  chat : Chat
  message_id : Int
  text : Option String
  from_first_name : String
deriving DecidableEq

/-- The pre_checkout_query object: its id and the id of the paying user
(data.pre_checkout_query.from.id). -/
structure PreCheckoutQuery where
  id : String
  from_id : Int
deriving DecidableEq

/-- An incoming Telegram update, with its three fields that onUpdate
inspects.  A field that is absent from the JSON payload is none. -/
structure Update where
  message : Option MessageContent
  channel_post : Option MessageContent
  pre_checkout_query : Option PreCheckoutQuery
deriving DecidableEq

/-- Failure behaviour of the TelegramBotAPI collaborator: for each
operation, whether the awaited call rejects (throws) on this run. -/
structure ApiBehavior where
  sendMessageFails : Bool
  sendInvoiceFails : Bool
  answerPreCheckoutQueryFails : Bool
  setMessageReactionFails : Bool
deriving DecidableEq

/-- The values in [0,1) produced by the calls of the random number
generator during one run of onUpdate: the probability-gate draw, the draw
of the reaction emoji, and the two draws inside pickDelayMs. -/
structure Draws where
  gate : ℚ
  emoji : ℚ
  base : ℚ
  jitter : ℚ
deriving DecidableEq

/-- The two delay-override environment variables, after applying Number:
none models NaN (unset or non-numeric), some q a numeric value. -/
structure Env where
  REACT_DELAY_MIN_MS : Option ℚ
  REACT_DELAY_MAX_MS : Option ℚ
deriving DecidableEq

/-- The environment with neither delay override set. -/
def noEnv : Env := { REACT_DELAY_MIN_MS := none, REACT_DELAY_MAX_MS := none }

/-- Abstraction of the text argument of the sendMessage calls issued by
onUpdate.  The literal texts live in constants.js, which is not among the
provided sources; the claims depend only on which call is made and on the
name substituted into the start message, so the payload records that. -/
inductive MsgText
  | startWelcome (name : String)
  | reactionsList (listText : String)
  | donationThanks
deriving DecidableEq

/-- One attempted outbound API call, with the arguments the claims
mention.  setMessageReaction additionally records the delay after which
the scheduled call fires. -/
inductive Effect
  | sendMessage (chatId : Int) (msg : MsgText)
  | sendInvoice (chatId : Int)
  | answerPreCheckoutQuery (queryId : String) (ok : Bool)
  | setMessageReaction (chatId : Int) (messageId : Int) (reaction : String) (delayMs : ℚ)
deriving DecidableEq

/-- Result of one run of onUpdate: the ordered trace of attempted
outbound API calls, and the error with which the promise returned by
onUpdate rejects (none when it resolves normally). -/
structure RunResult where
  effects : List Effect
  error : Option String
deriving DecidableEq

/-- Test for the reaction call in a trace. -/
def isReactionEffect : Effect → Bool
  | Effect.setMessageReaction _ _ _ _ => true
  | _ => false

/-- Per-chat-type default delay window of pickDelayMs, in milliseconds:
private 2000 to 6000, channel 10000 to 25000, group and supergroup
8000 to 20000. -/
def defaultWindow : ChatType → ℚ × ℚ
  | ChatType.privateChat => (2000, 6000)
  | ChatType.channel => (10000, 25000)
  | _ => (8000, 20000)

/-- The base draw of pickDelayMs: min + Math.floor(rnd * (max - min + 1)),
a uniform integer offset in [0, max - min] added to min when the draw
ranges over [0,1) and max - min is a nonnegative integer. -/
def delayBase (mn mx r : ℚ) : ℚ := mn + (⌊r * (mx - mn + 1)⌋ : ℚ)

/-- The jitter draw of pickDelayMs:
Math.floor(rnd * (RandomLevel * 300)). -/
def delayJitter (RandomLevel : ℕ) (r : ℚ) : ℚ :=
  (⌊r * ((RandomLevel : ℚ) * 300)⌋ : ℚ)

/-- Embedding of pickDelayMs(chatType, RandomLevel): resolve the (min,max)
window from the environment overrides when both are numeric and
max is at least min, else from the per-chat-type defaults; then
base = min + floor(rBase * (max - min + 1)) and
jitter = floor(rJitter * (RandomLevel * 300)); the result is base + jitter.
The two draws rBase and rJitter are the two Math.random() calls, passed
explicitly. -/
def pickDelayMs (env : Env) (chatType : ChatType) (RandomLevel : ℕ)
    (rBase rJitter : ℚ) : ℚ :=
  let mm : ℚ × ℚ :=
    match env.REACT_DELAY_MIN_MS, env.REACT_DELAY_MAX_MS with
    | some envMin, some envMax =>
        if envMin ≤ envMax then (envMin, envMax) else defaultWindow chatType
    | _, _ => defaultWindow chatType
  let base : ℚ := delayBase mm.1 mm.2 rBase
  let jitter : ℚ := delayJitter RandomLevel rJitter
  base + jitter

/-- Modelled from the spec: getRandomPositiveReaction lives in helper.js,
which is not among the provided sources.  The spec says the scheduler
chooses uniformly at random one emoji from the configured reaction list;
the uniform choice over the list is modelled as indexing by the floor of
the draw times the list length. -/
def getRandomPositiveReaction (reactions : List String) (r : ℚ) : String :=
  reactions.getD (⌊r * (reactions.length : ℚ)⌋).toNat ("")

/-- Embedding of scheduleReaction: sleep for delayMs, then attempt the
setMessageReaction call inside a try block whose catch clause logs the
failure.  The attempted call always enters the trace; the error, if the
call rejects, is swallowed by the catch clause and never escapes, so the
error component is none for every behaviour of the API client. -/
def scheduleReaction (api : ApiBehavior) (chatId : Int) (messageId : Int)
    (reaction : String) (delayMs : ℚ) : RunResult :=
  let attemptError : Option String :=
    if api.setMessageReactionFails then some ("setMessageReaction failed") else none
  let _caught := attemptError
  { effects := [Effect.setMessageReaction chatId messageId reaction delayMs]
    error := none }

/-- Embedding of the body of onUpdate for a message or channel-post
event.  isMessage records whether data.message is present (the command
branches test data.message, not the content object). -/
def onContent (isMessage : Bool) (content : MessageContent) (api : ApiBehavior)
    (Reactions : List String) (RestrictedChats : List Int) (botUsername : String)
    (RandomLevel : ℕ) (env : Env) (rnd : Draws) : RunResult :=
  let chatId := content.chat.id
  let message_id := content.message_id
  let text := content.text
  if isMessage ∧ (text = some ("/start") ∨ text = some (("/start@") ++ botUsername)) then
    let name :=
      if content.chat.type = ChatType.privateChat then content.from_first_name
      else content.chat.title
    { effects := [Effect.sendMessage chatId (MsgText.startWelcome name)]
      error := if api.sendMessageFails then some ("sendMessage failed") else none }
  else if isMessage ∧ text = some ("/reactions") then
    { effects := [Effect.sendMessage chatId
        (MsgText.reactionsList (String.intercalate (", ") Reactions))]
      error := if api.sendMessageFails then some ("sendMessage failed") else none }
  else if isMessage ∧ (text = some ("/donate") ∨ text = some ("/start donate")) then
    { effects := [Effect.sendInvoice chatId]
      error := if api.sendInvoiceFails then some ("sendInvoice failed") else none }
  else
    if chatId ∈ RestrictedChats then
      { effects := [], error := none }
    else
      let chatType := content.chat.type
      let reaction := getRandomPositiveReaction Reactions rnd.emoji
      let threshold : ℚ := 1 - (RandomLevel : ℚ) / 10
      let shouldReact : Bool :=
        if chatType = ChatType.privateChat then true
        else decide (rnd.gate ≤ threshold)
      if shouldReact then
        let delayMs := pickDelayMs env chatType RandomLevel rnd.base rnd.jitter
        scheduleReaction api chatId message_id reaction delayMs
      else
        { effects := [], error := none }

/-- Embedding of onUpdate(data, botApi, Reactions, RestrictedChats,
botUsername, RandomLevel): dispatch on the shape of the update.  A message
or channel post goes to onContent with the message object taking
precedence; a pre_checkout_query is answered with true and followed by a
thank-you message to the payer; any other shape is a no-op. -/
def onUpdate (data : Update) (api : ApiBehavior) (Reactions : List String)
    (RestrictedChats : List Int) (botUsername : String) (RandomLevel : ℕ)
    (env : Env) (rnd : Draws) : RunResult :=
  match data.message, data.channel_post with
  | some m, _ =>
      onContent true m api Reactions RestrictedChats botUsername RandomLevel env rnd
  | none, some c =>
      onContent false c api Reactions RestrictedChats botUsername RandomLevel env rnd
  | none, none =>
      match data.pre_checkout_query with
      | some q =>
          let eff1 := Effect.answerPreCheckoutQuery q.id true
          if api.answerPreCheckoutQueryFails then
            { effects := [eff1], error := some ("answerPreCheckoutQuery failed") }
          else
            let eff2 := Effect.sendMessage q.from_id MsgText.donationThanks
            if api.sendMessageFails then
              { effects := [eff1, eff2], error := some ("sendMessage failed") }
            else
              { effects := [eff1, eff2], error := none }
      | none => { effects := [], error := none }

/-- Condition under which a message text matches one of the three command
branches of onUpdate, used to state theorems about the non-command path. -/
def isCommand (botUsername : String) (text : Option String) : Bool :=
  decide (text = some ("/start")) || decide (text = some (("/start@") ++ botUsername))
    || decide (text = some ("/reactions")) || decide (text = some ("/donate"))
    || decide (text = some ("/start donate"))

/-- Reaction indicator of one run of onUpdate: true exactly when the trace
of attempted outbound calls contains a setMessageReaction call. -/
def reactsOn (data : Update) (api : ApiBehavior) (Reactions : List String)
    (RestrictedChats : List Int) (botUsername : String) (RandomLevel : ℕ)
    (env : Env) (rnd : Draws) : Bool :=
  (onUpdate data api Reactions RestrictedChats botUsername RandomLevel env rnd).effects.any
    isReactionEffect

lemma isCommand_eq_false_iff (u : String) (t : Option String) :
    isCommand u t = false ↔
      t ≠ some ("/start") ∧ t ≠ some (("/start@") ++ u) ∧ t ≠ some ("/reactions")
        ∧ t ≠ some ("/donate") ∧ t ≠ some ("/start donate") := by
  unfold isCommand
  simp only [Bool.or_eq_false_iff, decide_eq_false_iff_not]
  tauto

lemma reactions_ne_start_at (u : String) : ("/reactions") ≠ ("/start@") ++ u := by
  intro h
  have h2 : ("/reactions").data = ("/start@").data ++ u.data := by
    rw [h, String.data_append]
  simp only [show ("/reactions").data = ['/','r','e','a','c','t','i','o','n','s'] from rfl,
    show ("/start@").data = ['/','s','t','a','r','t','@'] from rfl,
    List.cons_append, List.nil_append, List.cons.injEq] at h2
  rcases h2 with ⟨-, hbad, -⟩
  exact absurd hbad (by decide)

lemma donate_ne_start_at (u : String) : ("/donate") ≠ ("/start@") ++ u := by
  intro h
  have h2 : ("/donate").data = ("/start@").data ++ u.data := by
    rw [h, String.data_append]
  simp only [show ("/donate").data = ['/','d','o','n','a','t','e'] from rfl,
    show ("/start@").data = ['/','s','t','a','r','t','@'] from rfl,
    List.cons_append, List.nil_append, List.cons.injEq] at h2
  rcases h2 with ⟨-, hbad, -⟩
  exact absurd hbad (by decide)

lemma start_donate_ne_start_at (u : String) : ("/start donate") ≠ ("/start@") ++ u := by
  intro h
  have h2 : ("/start donate").data = ("/start@").data ++ u.data := by
    rw [h, String.data_append]
  simp only [show ("/start donate").data =
      ['/','s','t','a','r','t',' ','d','o','n','a','t','e'] from rfl,
    show ("/start@").data = ['/','s','t','a','r','t','@'] from rfl,
    List.cons_append, List.nil_append, List.cons.injEq] at h2
  rcases h2 with ⟨-, -, -, -, -, -, hbad, -⟩
  exact absurd hbad (by decide)

lemma scheduleReaction_eq (api : ApiBehavior) (chatId messageId : Int)
    (reaction : String) (delayMs : ℚ) :
    scheduleReaction api chatId messageId reaction delayMs =
      { effects := [Effect.setMessageReaction chatId messageId reaction delayMs]
        error := none } := rfl

lemma onUpdate_message (data : Update) (c : MessageContent) (api : ApiBehavior)
    (Reactions : List String) (RestrictedChats : List Int) (botUsername : String)
    (RandomLevel : ℕ) (env : Env) (rnd : Draws) (hm : data.message = some c) :
    onUpdate data api Reactions RestrictedChats botUsername RandomLevel env rnd =
      onContent true c api Reactions RestrictedChats botUsername RandomLevel env rnd := by
  unfold onUpdate
  rw [hm]

lemma onUpdate_channel_post (data : Update) (c : MessageContent) (api : ApiBehavior)
    (Reactions : List String) (RestrictedChats : List Int) (botUsername : String)
    (RandomLevel : ℕ) (env : Env) (rnd : Draws)
    (hm : data.message = none) (hcp : data.channel_post = some c) :
    onUpdate data api Reactions RestrictedChats botUsername RandomLevel env rnd =
      onContent false c api Reactions RestrictedChats botUsername RandomLevel env rnd := by
  unfold onUpdate
  rw [hm, hcp]

lemma onContent_start (c : MessageContent) (api : ApiBehavior) (Reactions : List String)
    (RestrictedChats : List Int) (botUsername : String) (RandomLevel : ℕ)
    (env : Env) (rnd : Draws)
    (ht : c.text = some ("/start") ∨ c.text = some (("/start@") ++ botUsername)) :
    onContent true c api Reactions RestrictedChats botUsername RandomLevel env rnd =
      { effects := [Effect.sendMessage c.chat.id (MsgText.startWelcome
          (if c.chat.type = ChatType.privateChat then c.from_first_name else c.chat.title))]
        error := if api.sendMessageFails then some ("sendMessage failed") else none } := by
  rcases ht with h | h <;> simp [onContent, h]

lemma onContent_reactions (c : MessageContent) (api : ApiBehavior) (Reactions : List String)
    (RestrictedChats : List Int) (botUsername : String) (RandomLevel : ℕ)
    (env : Env) (rnd : Draws) (ht : c.text = some ("/reactions")) :
    onContent true c api Reactions RestrictedChats botUsername RandomLevel env rnd =
      { effects := [Effect.sendMessage c.chat.id
          (MsgText.reactionsList (String.intercalate (", ") Reactions))]
        error := if api.sendMessageFails then some ("sendMessage failed") else none } := by
  simp [onContent, ht, reactions_ne_start_at botUsername]

lemma onContent_donate (c : MessageContent) (api : ApiBehavior) (Reactions : List String)
    (RestrictedChats : List Int) (botUsername : String) (RandomLevel : ℕ)
    (env : Env) (rnd : Draws)
    (ht : c.text = some ("/donate") ∨ c.text = some ("/start donate")) :
    onContent true c api Reactions RestrictedChats botUsername RandomLevel env rnd =
      { effects := [Effect.sendInvoice c.chat.id]
        error := if api.sendInvoiceFails then some ("sendInvoice failed") else none } := by
  rcases ht with h | h <;>
    simp [onContent, h, donate_ne_start_at botUsername, start_donate_ne_start_at botUsername]

lemma onContent_noCommand (isMessage : Bool) (c : MessageContent) (api : ApiBehavior)
    (Reactions : List String) (RestrictedChats : List Int) (botUsername : String)
    (RandomLevel : ℕ) (env : Env) (rnd : Draws)
    (hnc : isMessage = true → isCommand botUsername c.text = false) :
    onContent isMessage c api Reactions RestrictedChats botUsername RandomLevel env rnd =
      if c.chat.id ∈ RestrictedChats then { effects := [], error := none }
      else if c.chat.type = ChatType.privateChat ∨ rnd.gate ≤ 1 - (RandomLevel : ℚ) / 10 then
        { effects := [Effect.setMessageReaction c.chat.id c.message_id
            (getRandomPositiveReaction Reactions rnd.emoji)
            (pickDelayMs env c.chat.type RandomLevel rnd.base rnd.jitter)]
          error := none }
      else { effects := [], error := none } := by
  cases isMessage with
  | false =>
      simp only [onContent, Bool.false_eq_true, false_and, if_false]
      by_cases hres : c.chat.id ∈ RestrictedChats
      · simp [hres]
      · by_cases hp : c.chat.type = ChatType.privateChat
        · simp [hres, hp, scheduleReaction_eq]
        · by_cases hg : rnd.gate ≤ 1 - (RandomLevel : ℚ) / 10
          · simp [hres, hp, hg, scheduleReaction_eq]
          · simp [hres, hp, hg]
  | true =>
      obtain ⟨h1, h2, h3, h4, h5⟩ := (isCommand_eq_false_iff botUsername c.text).mp (hnc rfl)
      simp only [onContent, true_and]
      rw [if_neg (by tauto), if_neg (by tauto), if_neg (by tauto)]
      by_cases hres : c.chat.id ∈ RestrictedChats
      · simp [hres]
      · by_cases hp : c.chat.type = ChatType.privateChat
        · simp [hres, hp, scheduleReaction_eq]
        · by_cases hg : rnd.gate ≤ 1 - (RandomLevel : ℚ) / 10
          · simp [hres, hp, hg, scheduleReaction_eq]
          · simp [hres, hp, hg]

/-- Test fixture: an API client none of whose calls rejects. -/
def apiOk : ApiBehavior := ⟨false, false, false, false⟩

/-- Test fixture: an API client whose sendMessage call rejects. -/
def apiMsgFail : ApiBehavior := ⟨true, false, false, false⟩

/-- Test fixture: all four random draws equal to zero. -/
def draws0 : Draws := ⟨0, 0, 0, 0⟩

/-- Test fixture: an update carrying only a message. -/
def msgUpdate (c : MessageContent) : Update := ⟨some c, none, none⟩

/-- Test fixture: an update carrying only a channel post. -/
def postUpdate (c : MessageContent) : Update := ⟨none, some c, none⟩

/-- Test fixture: a message content object with the given chat id, chat
type and text. -/
def mkContent (i : Int) (ty : ChatType) (t : Option String) : MessageContent :=
  { chat := { id := i, type := ty, title := ("Devs") }
    message_id := 1
    text := t
    from_first_name := ("Ann") }

/-- C9: an update payload carrying none of the keys message, channel_post
and pre_checkout_query produces no outbound API call and returns normally,
for every configuration, API behaviour and randomness. -/
theorem C9_unknown_update_noop (api : ApiBehavior) (Reactions : List String)
    (RestrictedChats : List Int) (botUsername : String) (RandomLevel : ℕ)
    (env : Env) (rnd : Draws) :
    onUpdate ⟨none, none, none⟩ api Reactions RestrictedChats botUsername RandomLevel
      env rnd = { effects := [], error := none } := rfl

/-- C8: an update carrying a pre_checkout_query and neither message nor
channel_post produces exactly one answerPreCheckoutQuery(id, true) call
followed by exactly one sendMessage thank-you call to the payer id,
provided the awaited answerPreCheckoutQuery call does not reject. -/
theorem C8_precheckout_calls (q : PreCheckoutQuery) (api : ApiBehavior)
    (Reactions : List String) (RestrictedChats : List Int) (botUsername : String)
    (RandomLevel : ℕ) (env : Env) (rnd : Draws)
    (h : api.answerPreCheckoutQueryFails = false) :
    (onUpdate ⟨none, none, some q⟩ api Reactions RestrictedChats botUsername
      RandomLevel env rnd).effects =
      [Effect.answerPreCheckoutQuery q.id true,
       Effect.sendMessage q.from_id MsgText.donationThanks] := by
  cases hs : api.sendMessageFails <;> simp [onUpdate, h, hs]

/-- Witness for C8 at a concrete pre-checkout update. -/
theorem C8_precheckout_calls_witness :
    (onUpdate ⟨none, none, some ⟨("q1"), 7⟩⟩ apiOk [] [] ("bot") 0 noEnv draws0).effects =
      [Effect.answerPreCheckoutQuery ("q1") true,
       Effect.sendMessage 7 MsgText.donationThanks] :=
  C8_precheckout_calls ⟨("q1"), 7⟩ apiOk [] [] ("bot") 0 noEnv draws0 rfl

/-- C2: a Message or ChannelPost update whose chat id is in the restricted
set never leads to a setMessageReaction call, for every API behaviour,
configuration and randomness. -/
theorem C2_restricted_no_reaction (data : Update) (c : MessageContent)
    (api : ApiBehavior) (Reactions : List String) (RestrictedChats : List Int)
    (botUsername : String) (RandomLevel : ℕ) (env : Env) (rnd : Draws)
    (hc : data.message = some c ∨ (data.message = none ∧ data.channel_post = some c))
    (hr : c.chat.id ∈ RestrictedChats) :
    reactsOn data api Reactions RestrictedChats botUsername RandomLevel env rnd = false := by
  rw [reactsOn]
  have hcont : ∀ isMessage : Bool,
      (isMessage = true → isCommand botUsername c.text = false) →
      ((onContent isMessage c api Reactions RestrictedChats botUsername RandomLevel
          env rnd).effects.any isReactionEffect) = false := by
    intro isMessage hnc
    rw [onContent_noCommand _ _ _ _ _ _ _ _ _ hnc, if_pos hr]
    rfl
  rcases hc with hm | ⟨hm, hcp⟩
  · rw [onUpdate_message data c _ _ _ _ _ _ _ hm]
    by_cases hcmd : isCommand botUsername c.text = true
    · have hcmd2 := hcmd
      unfold isCommand at hcmd2
      simp only [Bool.or_eq_true, decide_eq_true_eq] at hcmd2
      rcases hcmd2 with (((h | h) | h) | h) | h
      · rw [onContent_start _ _ _ _ _ _ _ _ (Or.inl h)]; rfl
      · rw [onContent_start _ _ _ _ _ _ _ _ (Or.inr h)]; rfl
      · rw [onContent_reactions _ _ _ _ _ _ _ _ h]; rfl
      · rw [onContent_donate _ _ _ _ _ _ _ _ (Or.inl h)]; rfl
      · rw [onContent_donate _ _ _ _ _ _ _ _ (Or.inr h)]; rfl
    · exact hcont true (fun _ => by simpa using hcmd)
  · rw [onUpdate_channel_post data c _ _ _ _ _ _ _ hm hcp]
    exact hcont false (fun h => absurd h (by simp))

/-- Witness for C2 at a concrete restricted-chat message. -/
theorem C2_restricted_no_reaction_witness :
    reactsOn (msgUpdate (mkContent 42 ChatType.group (some ("hello")))) apiOk
      [("ok")] [42] ("bot") 0 noEnv draws0 = false :=
  C2_restricted_no_reaction _ (mkContent 42 ChatType.group (some ("hello")))
    apiOk [("ok")] [42] ("bot") 0 noEnv draws0 (Or.inl rfl) (by decide)

/-- C10: the command checks run before the restricted-chat gate, so a
Message whose chat id is restricted but whose text is a command still
performs the outbound command call: the start, reactions-list and donate
scenarios each produce exactly their command call. -/
theorem C10_commands_bypass_restriction (api : ApiBehavior) (Reactions : List String)
    (RestrictedChats : List Int) (botUsername : String) (RandomLevel : ℕ)
    (env : Env) (rnd : Draws)
    (dataS dataR dataD : Update) (cS cR cD : MessageContent)
    (hmS : dataS.message = some cS)
    (_hrS : cS.chat.id ∈ RestrictedChats)
    (htS : cS.text = some ("/start") ∨ cS.text = some (("/start@") ++ botUsername))
    (hmR : dataR.message = some cR)
    (_hrR : cR.chat.id ∈ RestrictedChats)
    (htR : cR.text = some ("/reactions"))
    (hmD : dataD.message = some cD)
    (_hrD : cD.chat.id ∈ RestrictedChats)
    (htD : cD.text = some ("/donate") ∨ cD.text = some ("/start donate")) :
    (onUpdate dataS api Reactions RestrictedChats botUsername RandomLevel env rnd).effects =
      [Effect.sendMessage cS.chat.id (MsgText.startWelcome
        (if cS.chat.type = ChatType.privateChat then cS.from_first_name else cS.chat.title))]
    ∧ (onUpdate dataR api Reactions RestrictedChats botUsername RandomLevel env rnd).effects =
      [Effect.sendMessage cR.chat.id
        (MsgText.reactionsList (String.intercalate (", ") Reactions))]
    ∧ (onUpdate dataD api Reactions RestrictedChats botUsername RandomLevel env rnd).effects =
      [Effect.sendInvoice cD.chat.id] := by
  refine ⟨?_, ?_, ?_⟩
  · rw [onUpdate_message dataS cS _ _ _ _ _ _ _ hmS, onContent_start _ _ _ _ _ _ _ _ htS]
  · rw [onUpdate_message dataR cR _ _ _ _ _ _ _ hmR, onContent_reactions _ _ _ _ _ _ _ _ htR]
  · rw [onUpdate_message dataD cD _ _ _ _ _ _ _ hmD, onContent_donate _ _ _ _ _ _ _ _ htD]

/-- Witness for C10 at concrete restricted-chat command messages. -/
theorem C10_commands_bypass_restriction_witness :
    (onUpdate (msgUpdate (mkContent 42 ChatType.group (some ("/start")))) apiOk
      [("ok")] [42] ("bot") 0 noEnv draws0).effects =
      [Effect.sendMessage 42 (MsgText.startWelcome ("Devs"))]
    ∧ (onUpdate (msgUpdate (mkContent 42 ChatType.group (some ("/reactions")))) apiOk
      [("ok")] [42] ("bot") 0 noEnv draws0).effects =
      [Effect.sendMessage 42 (MsgText.reactionsList (String.intercalate (", ") [("ok")]))]
    ∧ (onUpdate (msgUpdate (mkContent 42 ChatType.group (some ("/donate")))) apiOk
      [("ok")] [42] ("bot") 0 noEnv draws0).effects =
      [Effect.sendInvoice 42] :=
  C10_commands_bypass_restriction apiOk [("ok")] [42] ("bot") 0 noEnv draws0
    _ _ _ (mkContent 42 ChatType.group (some ("/start")))
    (mkContent 42 ChatType.group (some ("/reactions")))
    (mkContent 42 ChatType.group (some ("/donate")))
    rfl (by decide) (Or.inl rfl) rfl (by decide) rfl rfl (by decide) (Or.inl rfl)

/-- C7: command dispatch on message events checks /start (exact text or
with the bot username suffix), then /reactions, then /donate or
/start donate; the matching command produces exactly its own outbound
call and short-circuits the reaction path, while a channel post with any
text never triggers a command and is routed to the reaction path (its
trace contains reaction calls only). -/
theorem C7_command_dispatch (api : ApiBehavior) (Reactions : List String)
    (RestrictedChats : List Int) (botUsername : String) (RandomLevel : ℕ)
    (env : Env) (rnd : Draws)
    (dataS dataR dataD dataC : Update) (cS cR cD cC : MessageContent)
    (hmS : dataS.message = some cS)
    (htS : cS.text = some ("/start") ∨ cS.text = some (("/start@") ++ botUsername))
    (hmR : dataR.message = some cR) (htR : cR.text = some ("/reactions"))
    (hmD : dataD.message = some cD)
    (htD : cD.text = some ("/donate") ∨ cD.text = some ("/start donate"))
    (hmC : dataC.message = none) (hcpC : dataC.channel_post = some cC) :
    (onUpdate dataS api Reactions RestrictedChats botUsername RandomLevel env rnd).effects =
      [Effect.sendMessage cS.chat.id (MsgText.startWelcome
        (if cS.chat.type = ChatType.privateChat then cS.from_first_name else cS.chat.title))]
    ∧ (onUpdate dataR api Reactions RestrictedChats botUsername RandomLevel env rnd).effects =
      [Effect.sendMessage cR.chat.id
        (MsgText.reactionsList (String.intercalate (", ") Reactions))]
    ∧ (onUpdate dataD api Reactions RestrictedChats botUsername RandomLevel env rnd).effects =
      [Effect.sendInvoice cD.chat.id]
    ∧ (onUpdate dataC api Reactions RestrictedChats botUsername RandomLevel env rnd).effects.all
        isReactionEffect = true := by
  refine ⟨?_, ?_, ?_, ?_⟩
  · rw [onUpdate_message dataS cS _ _ _ _ _ _ _ hmS, onContent_start _ _ _ _ _ _ _ _ htS]
  · rw [onUpdate_message dataR cR _ _ _ _ _ _ _ hmR, onContent_reactions _ _ _ _ _ _ _ _ htR]
  · rw [onUpdate_message dataD cD _ _ _ _ _ _ _ hmD, onContent_donate _ _ _ _ _ _ _ _ htD]
  · rw [onUpdate_channel_post dataC cC _ _ _ _ _ _ _ hmC hcpC,
      onContent_noCommand _ _ _ _ _ _ _ _ _ (fun h => absurd h (by simp))]
    split_ifs <;> rfl

/-- Witness for C7 at concrete command messages and a channel post whose
text equals a command string. -/
theorem C7_command_dispatch_witness :
    (onUpdate (msgUpdate (mkContent 3 ChatType.privateChat (some ("/start")))) apiOk
      [("ok")] [] ("bot") 0 noEnv draws0).effects =
      [Effect.sendMessage 3 (MsgText.startWelcome ("Ann"))]
    ∧ (onUpdate (msgUpdate (mkContent 3 ChatType.privateChat (some ("/reactions")))) apiOk
      [("ok")] [] ("bot") 0 noEnv draws0).effects =
      [Effect.sendMessage 3 (MsgText.reactionsList (String.intercalate (", ") [("ok")]))]
    ∧ (onUpdate (msgUpdate (mkContent 3 ChatType.privateChat (some ("/donate")))) apiOk
      [("ok")] [] ("bot") 0 noEnv draws0).effects =
      [Effect.sendInvoice 3]
    ∧ (onUpdate (postUpdate (mkContent 4 ChatType.channel (some ("/start")))) apiOk
      [("ok")] [] ("bot") 0 noEnv draws0).effects.all isReactionEffect = true :=
  C7_command_dispatch apiOk [("ok")] [] ("bot") 0 noEnv draws0
    _ _ _ _ (mkContent 3 ChatType.privateChat (some ("/start")))
    (mkContent 3 ChatType.privateChat (some ("/reactions")))
    (mkContent 3 ChatType.privateChat (some ("/donate")))
    (mkContent 4 ChatType.channel (some ("/start")))
    rfl (Or.inl rfl) rfl rfl rfl (Or.inl rfl) rfl rfl

lemma onContent_error_none (isMessage : Bool) (c : MessageContent) (api : ApiBehavior)
    (Reactions : List String) (RestrictedChats : List Int) (botUsername : String)
    (RandomLevel : ℕ) (env : Env) (rnd : Draws)
    (h1 : api.sendMessageFails = false) (h2 : api.sendInvoiceFails = false) :
    (onContent isMessage c api Reactions RestrictedChats botUsername RandomLevel
      env rnd).error = none := by
  simp only [onContent]
  split_ifs <;> simp_all [scheduleReaction_eq]

/-- C1 counterexample: a rejected sendMessage call during the /start
command escapes onUpdate, so its promise rejects instead of returning
normally. -/
theorem C1_counterexample :
    (onUpdate (msgUpdate (mkContent 1 ChatType.group (some ("/start")))) apiMsgFail
      [] [] ("bot") 0 noEnv draws0).error = some ("sendMessage failed") := rfl

/-- C1 amended: only failures of the fire-and-forget setMessageReaction
call are caught inside scheduleReaction; when the three directly awaited
calls (sendMessage, sendInvoice, answerPreCheckoutQuery) do not reject,
onUpdate returns normally for every update, configuration and randomness,
regardless of setMessageReaction failures. -/
theorem C1_no_escape_amended (data : Update) (api : ApiBehavior)
    (Reactions : List String) (RestrictedChats : List Int) (botUsername : String)
    (RandomLevel : ℕ) (env : Env) (rnd : Draws)
    (h1 : api.sendMessageFails = false) (h2 : api.sendInvoiceFails = false)
    (h3 : api.answerPreCheckoutQueryFails = false) :
    (onUpdate data api Reactions RestrictedChats botUsername RandomLevel
      env rnd).error = none := by
  rcases data with ⟨m, cp, q⟩
  cases m with
  | some c =>
      rw [onUpdate_message _ c _ _ _ _ _ _ _ rfl]
      exact onContent_error_none true c api Reactions RestrictedChats botUsername
        RandomLevel env rnd h1 h2
  | none =>
      cases cp with
      | some c =>
          rw [onUpdate_channel_post _ c _ _ _ _ _ _ _ rfl rfl]
          exact onContent_error_none false c api Reactions RestrictedChats botUsername
            RandomLevel env rnd h1 h2
      | none =>
          cases q with
          | some pq => simp [onUpdate, h3, h1]
          | none => rfl

/-- Witness for the amended C1: a setMessageReaction failure on the
reaction path still yields a normal return. -/
theorem C1_no_escape_amended_witness :
    (onUpdate (msgUpdate (mkContent 5 ChatType.privateChat none))
      ⟨false, false, false, true⟩ [("ok")] [] ("bot") 0 noEnv draws0).error = none :=
  C1_no_escape_amended (msgUpdate (mkContent 5 ChatType.privateChat none))
    ⟨false, false, false, true⟩ [("ok")] [] ("bot") 0 noEnv draws0 rfl rfl rfl

/-- C4 counterexample: a private-chat message outside the restricted set
whose text is the /start command is answered with the command reply and
no reaction is scheduled, refuting that every non-restricted private
Message event schedules a reaction. -/
theorem C4_counterexample :
    reactsOn (msgUpdate (mkContent 5 ChatType.privateChat (some ("/start")))) apiOk
      [("ok")] [] ("bot") 0 noEnv draws0 = false := rfl

/-- C4 amended: every private-chat Message event outside the restricted
set whose text matches no command always schedules a reaction; the
probability gate is bypassed for private chats. -/
theorem C4_private_always_reacts_amended (data : Update) (c : MessageContent)
    (api : ApiBehavior) (Reactions : List String) (RestrictedChats : List Int)
    (botUsername : String) (RandomLevel : ℕ) (env : Env) (rnd : Draws)
    (hm : data.message = some c) (hp : c.chat.type = ChatType.privateChat)
    (hr : c.chat.id ∉ RestrictedChats)
    (hnc : isCommand botUsername c.text = false) :
    reactsOn data api Reactions RestrictedChats botUsername RandomLevel env rnd = true := by
  rw [reactsOn, onUpdate_message data c _ _ _ _ _ _ _ hm,
    onContent_noCommand _ _ _ _ _ _ _ _ _ (fun _ => hnc), if_neg hr,
    if_pos (Or.inl hp)]
  rfl

/-- Witness for the amended C4 at a concrete non-command private message. -/
theorem C4_private_always_reacts_amended_witness :
    reactsOn (msgUpdate (mkContent 5 ChatType.privateChat (some ("hi")))) apiOk
      [("ok")] [] ("bot") 10 noEnv draws0 = true :=
  C4_private_always_reacts_amended _ (mkContent 5 ChatType.privateChat (some ("hi")))
    apiOk [("ok")] [] ("bot") 10 noEnv draws0 rfl rfl (by decide) rfl

/-- C3 counterexample: with randomLevel 10 the threshold is 0, yet the
gate uses a non-strict comparison, so the draw 0 still schedules a
reaction in a non-private non-restricted chat, refuting that randomLevel
10 never reacts. -/
theorem C3_counterexample :
    reactsOn (msgUpdate (mkContent 1 ChatType.group none)) apiOk [("ok")] []
      ("bot") 10 noEnv draws0 = true := by
  have hg : draws0.gate ≤ 1 - ((10 : ℕ) : ℚ) / 10 := by norm_num [draws0]
  have hnc : isCommand ("bot") (mkContent 1 ChatType.group none).text = false := rfl
  rw [reactsOn, onUpdate_message _ (mkContent 1 ChatType.group none) _ _ _ _ _ _ _ rfl,
    onContent_noCommand _ _ _ _ _ _ _ _ _ (fun _ => hnc), if_neg (by decide),
    if_pos (Or.inr hg)]
  rfl

/-- C3 amended: on the non-command, non-restricted, non-private path the
gate draws one uniform value and proceeds exactly when the draw is at
most 1 - randomLevel/10; with randomLevel 0 it always proceeds, and with
randomLevel 10 it proceeds exactly when the draw equals 0. -/
theorem C3_gate_amended (data : Update) (c : MessageContent) (api : ApiBehavior)
    (Reactions : List String) (RestrictedChats : List Int) (botUsername : String)
    (RandomLevel : ℕ) (env : Env) (rnd : Draws)
    (hc : (data.message = some c ∧ isCommand botUsername c.text = false)
      ∨ (data.message = none ∧ data.channel_post = some c))
    (hp : c.chat.type ≠ ChatType.privateChat)
    (hr : c.chat.id ∉ RestrictedChats)
    (h0 : 0 ≤ rnd.gate) (h1 : rnd.gate < 1) :
    (reactsOn data api Reactions RestrictedChats botUsername RandomLevel env rnd = true
      ↔ rnd.gate ≤ 1 - (RandomLevel : ℚ) / 10)
    ∧ reactsOn data api Reactions RestrictedChats botUsername 0 env rnd = true
    ∧ (reactsOn data api Reactions RestrictedChats botUsername 10 env rnd = true
      ↔ rnd.gate = 0) := by
  have key : ∀ RL : ℕ,
      reactsOn data api Reactions RestrictedChats botUsername RL env rnd = true
        ↔ rnd.gate ≤ 1 - (RL : ℚ) / 10 := by
    intro RL
    have hbody : ∀ isMessage : Bool,
        (isMessage = true → isCommand botUsername c.text = false) →
        ((onContent isMessage c api Reactions RestrictedChats botUsername RL env
            rnd).effects.any isReactionEffect = true ↔ rnd.gate ≤ 1 - (RL : ℚ) / 10) := by
      intro isMessage hnc
      rw [onContent_noCommand _ _ _ _ _ _ _ _ _ hnc, if_neg hr]
      by_cases hg : rnd.gate ≤ 1 - (RL : ℚ) / 10
      · rw [if_pos (Or.inr hg)]
        simp [isReactionEffect, hg]
      · rw [if_neg (by tauto)]
        simp [hg]
    rcases hc with ⟨hm, hnc⟩ | ⟨hm, hcp⟩
    · rw [reactsOn, onUpdate_message data c _ _ _ _ _ _ _ hm]
      exact hbody true (fun _ => hnc)
    · rw [reactsOn, onUpdate_channel_post data c _ _ _ _ _ _ _ hm hcp]
      exact hbody false (fun h => absurd h (by simp))
  refine ⟨key RandomLevel, ?_, ?_⟩
  · rw [key 0]
    push_cast
    linarith
  · rw [key 10]
    constructor
    · intro h
      have h2 : rnd.gate ≤ 0 := by push_cast at h; linarith
      exact le_antisymm h2 h0
    · intro h
      rw [h]
      norm_num

/-- Witness for the amended C3 at a concrete group message with draw 0. -/
theorem C3_gate_amended_witness :
    (reactsOn (msgUpdate (mkContent 1 ChatType.group none)) apiOk [("ok")] []
        ("bot") 5 noEnv draws0 = true ↔ draws0.gate ≤ 1 - ((5 : ℕ) : ℚ) / 10)
    ∧ reactsOn (msgUpdate (mkContent 1 ChatType.group none)) apiOk [("ok")] []
        ("bot") 0 noEnv draws0 = true
    ∧ (reactsOn (msgUpdate (mkContent 1 ChatType.group none)) apiOk [("ok")] []
        ("bot") 10 noEnv draws0 = true ↔ draws0.gate = 0) :=
  C3_gate_amended _ (mkContent 1 ChatType.group none) apiOk [("ok")] [] ("bot")
    5 noEnv draws0 (Or.inl ⟨rfl, rfl⟩) (by decide) (by decide)
    (le_refl 0) zero_lt_one

lemma pickDelayMs_noEnv (ct : ChatType) (RL : ℕ) (r1 r2 : ℚ) :
    pickDelayMs noEnv ct RL r1 r2 =
      delayBase (defaultWindow ct).1 (defaultWindow ct).2 r1 + delayJitter RL r2 := rfl

lemma pickDelayMs_env (a b : ℚ) (hab : a ≤ b) (ct : ChatType) (RL : ℕ) (r1 r2 : ℚ) :
    pickDelayMs ⟨some a, some b⟩ ct RL r1 r2 = delayBase a b r1 + delayJitter RL r2 := by
  simp only [pickDelayMs]
  rw [if_pos hab]

lemma delayBase_bounds (mn mx : ℚ) (n : ℤ) (hn : mx - mn = (n : ℚ)) (hn0 : 0 ≤ n)
    (r : ℚ) (h0 : 0 ≤ r) (h1 : r < 1) :
    mn ≤ delayBase mn mx r ∧ delayBase mn mx r ≤ mx := by
  have hn0q : (0 : ℚ) ≤ (n : ℚ) := by exact_mod_cast hn0
  have hspan : mx - mn + 1 = ((n + 1 : ℤ) : ℚ) := by push_cast; linarith
  have hspanpos : (0 : ℚ) < mx - mn + 1 := by linarith
  constructor
  · have hf : 0 ≤ ⌊r * (mx - mn + 1)⌋ :=
      Int.floor_nonneg.mpr (mul_nonneg h0 (le_of_lt hspanpos))
    have hf2 : (0 : ℚ) ≤ (⌊r * (mx - mn + 1)⌋ : ℚ) := by exact_mod_cast hf
    unfold delayBase
    linarith
  · have hlt : r * (mx - mn + 1) < mx - mn + 1 := mul_lt_of_lt_one_left hspanpos h1
    have hlt2 : r * (mx - mn + 1) < ((n + 1 : ℤ) : ℚ) := by rw [← hspan]; exact hlt
    have hfl : ⌊r * (mx - mn + 1)⌋ < n + 1 := Int.floor_lt.mpr hlt2
    have hfl2 : ⌊r * (mx - mn + 1)⌋ ≤ n := by omega
    have hfl3 : (⌊r * (mx - mn + 1)⌋ : ℚ) ≤ (n : ℚ) := by exact_mod_cast hfl2
    unfold delayBase
    linarith

lemma delayJitter_zero (r : ℚ) : delayJitter 0 r = 0 := by
  unfold delayJitter
  norm_num

lemma delayJitter_bounds (RL : ℕ) (r : ℚ) (h0 : 0 ≤ r) (h1 : r < 1) :
    0 ≤ delayJitter RL r ∧ delayJitter RL r < max ((RL : ℚ) * 300) 1 := by
  have hRL : (0 : ℚ) ≤ (RL : ℚ) * 300 := by positivity
  constructor
  · unfold delayJitter
    have hf : 0 ≤ ⌊r * ((RL : ℚ) * 300)⌋ := Int.floor_nonneg.mpr (mul_nonneg h0 hRL)
    exact_mod_cast hf
  · rcases Nat.eq_zero_or_pos RL with h | h
    · subst h
      rw [delayJitter_zero]
      norm_num
    · have hq : (0 : ℚ) < (RL : ℚ) := by exact_mod_cast h
      have hpos : (0 : ℚ) < (RL : ℚ) * 300 := by nlinarith
      have hlt : r * ((RL : ℚ) * 300) < (RL : ℚ) * 300 := mul_lt_of_lt_one_left hpos h1
      have hfl : (⌊r * ((RL : ℚ) * 300)⌋ : ℚ) ≤ r * ((RL : ℚ) * 300) := Int.floor_le _
      have hfin : (⌊r * ((RL : ℚ) * 300)⌋ : ℚ) < (RL : ℚ) * 300 := lt_of_le_of_lt hfl hlt
      unfold delayJitter
      exact lt_max_iff.mpr (Or.inl hfin)

lemma delayJitter_le (RL : ℕ) (r : ℚ) (h0 : 0 ≤ r) (h1 : r < 1) :
    delayJitter RL r ≤ (RL : ℚ) * 300 := by
  rcases Nat.eq_zero_or_pos RL with h | h
  · subst h
    rw [delayJitter_zero]
    norm_num
  · have hb := (delayJitter_bounds RL r h0 h1).2
    have hq : (1 : ℚ) ≤ (RL : ℚ) := by exact_mod_cast h
    have hmax : max ((RL : ℚ) * 300) 1 = (RL : ℚ) * 300 := max_eq_left (by nlinarith)
    rw [hmax] at hb
    exact le_of_lt hb

/-- C5: with no environment overrides the delay decomposes as base plus
jitter, where the base lies in the per-chat-type default window (private
2000 to 6000, channel 10000 to 25000, group and supergroup 8000 to 20000),
the jitter is nonnegative, below randomLevel * 300 whenever that product
is at least 1 and hence zero when randomLevel is 0; in particular the
private-chat delay always lies in [2000, 6000 + randomLevel * 300]. -/
theorem C5_default_delay_window (ct : ChatType) (RL : ℕ) (r1 r2 : ℚ)
    (h0 : 0 ≤ r1) (h1 : r1 < 1) (h2 : 0 ≤ r2) (h3 : r2 < 1) :
    pickDelayMs noEnv ct RL r1 r2 =
      delayBase (defaultWindow ct).1 (defaultWindow ct).2 r1 + delayJitter RL r2
    ∧ (defaultWindow ct).1 ≤ delayBase (defaultWindow ct).1 (defaultWindow ct).2 r1
    ∧ delayBase (defaultWindow ct).1 (defaultWindow ct).2 r1 ≤ (defaultWindow ct).2
    ∧ 0 ≤ delayJitter RL r2
    ∧ delayJitter RL r2 < max ((RL : ℚ) * 300) 1
    ∧ 2000 ≤ pickDelayMs noEnv ChatType.privateChat RL r1 r2
    ∧ pickDelayMs noEnv ChatType.privateChat RL r1 r2 ≤ 6000 + (RL : ℚ) * 300 := by
  have hj := delayJitter_bounds RL r2 h2 h3
  have hjle := delayJitter_le RL r2 h2 h3
  have hpriv := delayBase_bounds 2000 6000 4000 (by norm_num) (by norm_num) r1 h0 h1
  have hprivEq : pickDelayMs noEnv ChatType.privateChat RL r1 r2 =
      delayBase 2000 6000 r1 + delayJitter RL r2 := rfl
  have hprivLo : 2000 ≤ pickDelayMs noEnv ChatType.privateChat RL r1 r2 := by
    rw [hprivEq]; linarith [hpriv.1, hj.1]
  have hprivHi : pickDelayMs noEnv ChatType.privateChat RL r1 r2 ≤ 6000 + (RL : ℚ) * 300 := by
    rw [hprivEq]; linarith [hpriv.2, hjle]
  cases ct with
  | privateChat =>
      exact ⟨rfl, hpriv.1, hpriv.2, hj.1, hj.2, hprivLo, hprivHi⟩
  | channel =>
      have hb := delayBase_bounds 10000 25000 15000 (by norm_num) (by norm_num) r1 h0 h1
      exact ⟨rfl, hb.1, hb.2, hj.1, hj.2, hprivLo, hprivHi⟩
  | group =>
      have hb := delayBase_bounds 8000 20000 12000 (by norm_num) (by norm_num) r1 h0 h1
      exact ⟨rfl, hb.1, hb.2, hj.1, hj.2, hprivLo, hprivHi⟩
  | supergroup =>
      have hb := delayBase_bounds 8000 20000 12000 (by norm_num) (by norm_num) r1 h0 h1
      exact ⟨rfl, hb.1, hb.2, hj.1, hj.2, hprivLo, hprivHi⟩

/-- Witness for C5 at the private window with both draws zero and
randomLevel 10. -/
theorem C5_default_delay_window_witness :
    pickDelayMs noEnv ChatType.privateChat 10 0 0 =
      delayBase (defaultWindow ChatType.privateChat).1
        (defaultWindow ChatType.privateChat).2 0 + delayJitter 10 0
    ∧ (defaultWindow ChatType.privateChat).1 ≤
        delayBase (defaultWindow ChatType.privateChat).1
          (defaultWindow ChatType.privateChat).2 0
    ∧ delayBase (defaultWindow ChatType.privateChat).1
        (defaultWindow ChatType.privateChat).2 0 ≤ (defaultWindow ChatType.privateChat).2
    ∧ 0 ≤ delayJitter 10 0
    ∧ delayJitter 10 0 < max (((10 : ℕ) : ℚ) * 300) 1
    ∧ 2000 ≤ pickDelayMs noEnv ChatType.privateChat 10 0 0
    ∧ pickDelayMs noEnv ChatType.privateChat 10 0 0 ≤ 6000 + ((10 : ℕ) : ℚ) * 300 :=
  C5_default_delay_window ChatType.privateChat 10 0 0 (le_refl 0) zero_lt_one
    (le_refl 0) zero_lt_one

/-- C6 counterexample: with the numeric but non-integer overrides
envMin = 0 and envMax = 1/2 and the valid draw 3/4, the computed delay is
1 and so exceeds envMax, refuting that the base always lies in
[envMin, envMax] for every numeric override pair. -/
theorem C6_counterexample :
    (0 : ℚ) ≤ 3 / 4 ∧ (3 / 4 : ℚ) < 1 ∧ (0 : ℚ) ≤ 1 / 2
    ∧ pickDelayMs ⟨some 0, some (1 / 2)⟩ ChatType.group 0 (3 / 4) 0 = 1
    ∧ ¬(pickDelayMs ⟨some 0, some (1 / 2)⟩ ChatType.group 0 (3 / 4) 0 ≤ 1 / 2) := by
  have hfloor : (⌊(9 / 8 : ℚ)⌋ : ℤ) = 1 := by
    rw [Int.floor_eq_iff]
    norm_num
  have hbase : delayBase 0 (1 / 2) (3 / 4) = 1 := by
    unfold delayBase
    rw [show ((3 : ℚ) / 4 * ((1 : ℚ) / 2 - 0 + 1)) = 9 / 8 from by norm_num, hfloor]
    norm_num
  have hval : pickDelayMs ⟨some 0, some (1 / 2)⟩ ChatType.group 0 (3 / 4) 0 = 1 := by
    rw [pickDelayMs_env 0 (1 / 2) (by norm_num) ChatType.group 0 (3 / 4) 0,
      hbase, delayJitter_zero]
    norm_num
  refine ⟨by norm_num, by norm_num, by norm_num, hval, ?_⟩
  rw [hval]
  norm_num

/-- C6 amended: when both overrides are integers with max at least min,
the override window replaces the per-chat-type defaults for every chat
type: the delay decomposes into a base lying in [envMin, envMax] plus a
nonnegative jitter, the jitter vanishes at randomLevel 0, and with
randomLevel 0 the delay itself lies in [envMin, envMax]. -/
theorem C6_env_override_amended (a b : ℤ) (ct : ChatType) (RL : ℕ) (r1 r2 : ℚ)
    (hab : a ≤ b) (h0 : 0 ≤ r1) (h1 : r1 < 1) (h2 : 0 ≤ r2) (h3 : r2 < 1) :
    pickDelayMs ⟨some (a : ℚ), some (b : ℚ)⟩ ct RL r1 r2 =
      delayBase (a : ℚ) (b : ℚ) r1 + delayJitter RL r2
    ∧ (a : ℚ) ≤ delayBase (a : ℚ) (b : ℚ) r1
    ∧ delayBase (a : ℚ) (b : ℚ) r1 ≤ (b : ℚ)
    ∧ 0 ≤ delayJitter RL r2
    ∧ delayJitter 0 r2 = 0
    ∧ (a : ℚ) ≤ pickDelayMs ⟨some (a : ℚ), some (b : ℚ)⟩ ct 0 r1 r2
    ∧ pickDelayMs ⟨some (a : ℚ), some (b : ℚ)⟩ ct 0 r1 r2 ≤ (b : ℚ) := by
  have hab2 : (a : ℚ) ≤ (b : ℚ) := by exact_mod_cast hab
  have hb := delayBase_bounds (a : ℚ) (b : ℚ) (b - a) (by push_cast; ring)
    (by omega) r1 h0 h1
  have hj := delayJitter_bounds RL r2 h2 h3
  have hjz := delayJitter_zero r2
  refine ⟨pickDelayMs_env _ _ hab2 ct RL r1 r2, hb.1, hb.2, hj.1, hjz, ?_, ?_⟩
  · rw [pickDelayMs_env _ _ hab2 ct 0 r1 r2, hjz]
    linarith [hb.1]
  · rw [pickDelayMs_env _ _ hab2 ct 0 r1 r2, hjz]
    linarith [hb.2]

/-- Witness for the amended C6 at the override pair (100, 200) with
randomLevel 0. -/
theorem C6_env_override_amended_witness :
    pickDelayMs ⟨some ((100 : ℤ) : ℚ), some ((200 : ℤ) : ℚ)⟩ ChatType.group 0 0 0 =
      delayBase ((100 : ℤ) : ℚ) ((200 : ℤ) : ℚ) 0 + delayJitter 0 0
    ∧ ((100 : ℤ) : ℚ) ≤ delayBase ((100 : ℤ) : ℚ) ((200 : ℤ) : ℚ) 0
    ∧ delayBase ((100 : ℤ) : ℚ) ((200 : ℤ) : ℚ) 0 ≤ ((200 : ℤ) : ℚ)
    ∧ 0 ≤ delayJitter 0 0
    ∧ delayJitter 0 0 = 0
    ∧ ((100 : ℤ) : ℚ) ≤
        pickDelayMs ⟨some ((100 : ℤ) : ℚ), some ((200 : ℤ) : ℚ)⟩ ChatType.group 0 0 0
    ∧ pickDelayMs ⟨some ((100 : ℤ) : ℚ), some ((200 : ℤ) : ℚ)⟩ ChatType.group 0 0 0 ≤
        ((200 : ℤ) : ℚ) :=
  C6_env_override_amended 100 200 ChatType.group 0 0 0 (by decide) (le_refl 0)
    zero_lt_one (le_refl 0) zero_lt_one

end AutoReactionBot
